import Mathlib

/-!
# k8snetperf: result aggregation and reporting

A shallow embedding of `netperf/result.go` (statistics wrapper, scenario
classifier, comparative metric, report renderers) and of `UpdateConfig` from
`pkg/k8s/kubevirt.go`, followed by theorems about them.

Conventions of the embedding:

* a Go `float64` that is input data (a throughput or latency measurement, a CPU
  percentage) is an exact rational: the data model has finite values only.  A
  computed `float64` is an `F64`, which adds the three non-finite values of
  IEEE-754 (`NaN`, `+Inf`, `-Inf`) to the rationals.  The statistics library
  adds measurements with overflow to an infinity (`F64.addOverflow`); `calDiff`
  is taken over exact arithmetic, with the non-finite results of a division by
  zero.  Rounding within the finite range and the sign of zero are not
  modelled;
* a Go `string` is a Lean `String`, compared character by character;
* a Go `int` is an `Int`;
* a Go `error` result is an `Option`, `none` standing for `nil`;
* standard output is the list of `fmt.Printf` calls made, each kept as its
  format string together with its arguments.
-/

namespace K8sNetperf

/-! ## Floating-point results -/

/-- A computed `float64`: a finite value, or one of the non-finite values. -/
inductive F64 where
  | fin (q : ℚ)
  | posInf
  | negInf
  | nan
  deriving DecidableEq

/-- The least magnitude that `float64` arithmetic rounds to an infinity:
`2^1024 - 2^970`, half a unit in the last place above the largest finite
`float64`. -/
def overflowBound : ℚ := 2 ^ 1024 - 2 ^ 970

namespace F64

/-- Unary minus on `float64`. -/
def neg : F64 → F64
  | fin q => fin (-q)
  | posInf => negInf
  | negInf => posInf
  | nan => nan

/-- Sum of two `float64`: `Inf + -Inf` is `NaN`. -/
def add : F64 → F64 → F64
  | nan, _ => nan
  | _, nan => nan
  | fin a, fin b => fin (a + b)
  | fin _, posInf => posInf
  | fin _, negInf => negInf
  | posInf, fin _ => posInf
  | negInf, fin _ => negInf
  | posInf, posInf => posInf
  | negInf, negInf => negInf
  | posInf, negInf => nan
  | negInf, posInf => nan

/-- Difference of two `float64`. -/
def sub (x y : F64) : F64 := add x (neg y)

/-- The infinity of the sign of `q`, or `NaN` for `q = 0`. -/
def signedInf (q : ℚ) : F64 :=
  if q = 0 then nan else if 0 < q then posInf else negInf

/-- Product of two `float64`: `0 * Inf` is `NaN`. -/
def mul : F64 → F64 → F64
  | nan, _ => nan
  | _, nan => nan
  | fin a, fin b => fin (a * b)
  | fin a, posInf => signedInf a
  | fin a, negInf => signedInf (-a)
  | posInf, fin b => signedInf b
  | negInf, fin b => signedInf (-b)
  | posInf, posInf => posInf
  | negInf, negInf => posInf
  | posInf, negInf => negInf
  | negInf, posInf => negInf

/-- Quotient of two `float64`.  Division by zero does not trap in Go: `0 / 0`
is `NaN` and `x / 0` is the infinity of the sign of `x`. -/
def div : F64 → F64 → F64
  | nan, _ => nan
  | _, nan => nan
  | fin a, fin b => if b = 0 then signedInf a else fin (a / b)
  | fin _, posInf => fin 0
  | fin _, negInf => fin 0
  | posInf, fin b => if 0 ≤ b then posInf else negInf
  | negInf, fin b => if 0 ≤ b then negInf else posInf
  | posInf, posInf => nan
  | posInf, negInf => nan
  | negInf, posInf => nan
  | negInf, negInf => nan

/-- Whether the value is a number, the opposite of `NaN` or an infinity. -/
def isFinite : F64 → Bool
  | fin _ => true
  | _ => false

/-- The `float64` an operation yields whose exact result is `q`: an infinity
when `q` is out of range, else `q` itself. -/
def overflow (q : ℚ) : F64 :=
  if overflowBound ≤ q then posInf else if q ≤ -overflowBound then negInf else fin q

/-- Sum of two `float64` as the hardware computes it, up to rounding: a finite
result out of range becomes an infinity. -/
def addOverflow (x y : F64) : F64 :=
  match add x y with
  | fin q => overflow q
  | v => v

end F64

/-! ## The statistics library -/

/-- The errors of the statistics library. -/
inductive StatsError where
  | emptyInput
  deriving DecidableEq

/-- Modelled from the spec: `stats.Sum` of `github.com/montanaflynn/stats`, on a
series known to be non-empty: `sum` starts at zero and the loop does
`sum += n` for each element, in `float64`. -/
def statsSum (input : List ℚ) : F64 :=
  input.foldl (fun sum n => F64.addOverflow sum (F64.fin n)) (F64.fin 0)

/-- Modelled from the spec: `stats.Mean` of `github.com/montanaflynn/stats`, on a
series known to be non-empty: the sum divided by the length. -/
def statsMean (input : List ℚ) : F64 :=
  F64.div (statsSum input) (F64.fin input.length)

/-- Modelled from the spec: the sorted copy of the series that `stats.Median`
works on. -/
def sortedCopy (input : List ℚ) : List ℚ := input.insertionSort (· ≤ ·)

/-- The exact sum of the two middle elements of the sorted series, the sum that
the median of a series of even length computes in `float64`. -/
def middleSum (input : List ℚ) : ℚ :=
  (sortedCopy input).getD (input.length / 2 - 1) 0 + (sortedCopy input).getD (input.length / 2) 0

/-- Modelled from the spec: `stats.Median` of `github.com/montanaflynn/stats`,
which is not part of the repository.  The series is copied and sorted; an empty
series fails with the empty-input error; otherwise the result is the middle
element for an odd length and the mean of the two middle elements for an even
length (`Mean(c[l/2-1 : l/2+1])`).  The number the library hands back next to
the error differs between its releases (zero, later `NaN`), so it is the
parameter `emptyMedian`. -/
def statsMedian (emptyMedian : F64) (input : List ℚ) : F64 × Option StatsError :=
  let c := sortedCopy input
  let l := c.length
  if l = 0 then (emptyMedian, some StatsError.emptyInput)
  else if l % 2 = 0 then (statsMean ((c.drop (l / 2 - 1)).take 2), none)
  else (F64.fin (c.getD (l / 2) 0), none)

/-! ## Data model (`netperf/result.go`) -/

/-- Modelled from the spec: the declaration of `Config` is not among the source
files; these are the fields the source reads or writes.  Every field defaults
to its Go zero value. -/
structure Config where
  Profile : String := ""
  Duration : Int := 0
  Samples : Int := 0
  MessageSize : Int := 0
  VM : Bool := false
  VMHost : String := ""
  deriving DecidableEq

/-- Modelled from the spec: `metrics.NodeCPU`, the eight CPU percentages of a
node; its declaration is not among the source files. -/
structure NodeCPU where
  Idle : ℚ := 0
  User : ℚ := 0
  System : ℚ := 0
  Steal : ℚ := 0
  Iowait : ℚ := 0
  Nice : ℚ := 0
  Softirq : ℚ := 0
  Irq : ℚ := 0
  deriving DecidableEq

/-- The result data of one run (`Data`), with the embedded `Config`.  The node
descriptions, the time bounds and the per-pod CPU values are read by none of
the functions below and are left out. -/
structure Data extends Config where
  Metric : String := ""
  SameNode : Bool := false
  HostNetwork : Bool := false
  Service : Bool := false
  ThroughputSummary : List ℚ := []
  LatencySummary : List ℚ := []
  ClientMetrics : NodeCPU := {}
  ServerMetrics : NodeCPU := {}
  deriving DecidableEq

/-- Each scenario can have several results (`ScenarioResults`). -/
structure ScenarioResults where
  Results : List Data := []
  deriving DecidableEq

/-! ## Statistics wrapper, classifier and comparative metric -/

/-- The function `average`: the median of the series, from the library. -/
def average (emptyMedian : F64) (vals : List ℚ) : F64 × Option StatsError :=
  statsMedian emptyMedian vals

/-- Whether `sub` starts `s`, character by character. -/
def startsWith : List Char → List Char → Bool
  | _, [] => true
  | [], _ :: _ => false
  | c :: s, d :: sub => c == d && startsWith s sub

/-- Whether `sub` occurs in `s` at some position. -/
def containsChars : List Char → List Char → Bool
  | [], sub => startsWith [] sub
  | c :: s, sub => startsWith (c :: s) sub || containsChars s sub

/-- Go's `strings.Contains`: whether `substr` is within `s`. -/
def stringsContains (s substr : String) : Bool := containsChars s.data substr.data

/-- The function `checkResults`: whether some result has a profile containing
`check`. -/
def checkResults (s : ScenarioResults) (check : String) : Bool :=
  s.Results.any fun r => stringsContains r.Profile check

/-- The function `CheckHostResults`: whether some result is host-networked. -/
def CheckHostResults (s : ScenarioResults) : Bool :=
  s.Results.any fun r => r.HostNetwork

/-- The function `calDiff`: `(a - b) / ((a + b) / 2) * 100`. -/
def calDiff (a b : F64) : F64 :=
  F64.mul (F64.div (F64.sub a b) (F64.div (F64.add a b) (F64.fin 2))) (F64.fin 100)

/-- One iteration of the loop of `TCPThroughputDiff` on the pair
`(hostPerf, podPerf)`. -/
def tcpStep (emptyMedian : F64) (acc : F64 × F64) (r : Data) : F64 × F64 :=
  if !r.Service then
    if r.HostNetwork then
      if r.Profile = "TCP_STREAM" then ((average emptyMedian r.ThroughputSummary).1, acc.2)
      else acc
    else
      if r.Profile = "TCP_STREAM" then (acc.1, (average emptyMedian r.ThroughputSummary).1)
      else acc
  else acc

/-- The function `TCPThroughputDiff`: both values start at `0.0`, the loop runs
over all results in order, and the error returned is always `nil`. -/
def TCPThroughputDiff (emptyMedian : F64) (s : ScenarioResults) : F64 × Option StatsError :=
  let perf := s.Results.foldl (tcpStep emptyMedian) (F64.fin 0, F64.fin 0)
  (calDiff perf.1 perf.2, none)

/-- A sample on the host side of the comparison: not a service, host-networked,
profile exactly "TCP_STREAM". -/
def hostSide (r : Data) : Bool :=
  !r.Service && r.HostNetwork && r.Profile == "TCP_STREAM"

/-- A sample on the pod side of the comparison: not a service, not
host-networked, profile exactly "TCP_STREAM". -/
def podSide (r : Data) : Bool :=
  !r.Service && !r.HostNetwork && r.Profile == "TCP_STREAM"

/-- The last sample of the list, in list order, that satisfies `p`. -/
def lastMatch (p : Data → Bool) (rs : List Data) : Option Data :=
  rs.reverse.find? p

/-- The value a side of the comparison gets from its chosen sample: `0.0`
without a sample, else what `average` returns for the throughput series. -/
def matchPerf (emptyMedian : F64) : Option Data → F64
  | none => F64.fin 0
  | some r => (average emptyMedian r.ThroughputSummary).1

/-! ## Report renderers

Each renderer returns the `fmt.Printf` calls it makes, in order. -/

/-- An argument of `fmt.Printf`, by its Go type. -/
inductive Arg where
  | str (s : String)
  | bool (b : Bool)
  | int (n : Int)
  | float (v : F64)
  deriving DecidableEq

/-- One call of `fmt.Printf`: the format string and the arguments. -/
structure Line where
  format : String
  args : List Arg
  deriving DecidableEq

/-- Go's `strings.Repeat`. -/
def stringsRepeat (s : String) (count : Nat) : String :=
  String.join (List.replicate count s)

/-- The call `fmt.Printf("%s\r\n", strings.Repeat("-", n))`. -/
def ruleLine (n : Nat) : Line :=
  ⟨"%s\r\n", [Arg.str (stringsRepeat "-" n)]⟩

/-- A title banner: `fmt.Printf(format, strings.Repeat("-", n), strings.Repeat("-", n))`. -/
def bannerLine (format : String) (n : Nat) : Line :=
  ⟨format, [Arg.str (stringsRepeat "-" n), Arg.str (stringsRepeat "-" n)]⟩

/-- The format of a row of the node CPU table. -/
def nodeRowFormat : String :=
  "📊 %-15s | %-15s | %-15t | %-15t | %-15d | %-15t | %-15f | %-15f | %-15f | %-15f | %-15f | %-15f | %-15f | %-15f\r\n"

/-- The header of the node CPU table. -/
def nodeHeader : Line :=
  ⟨"%-18s | %-15s | %-15s | %-15s | %-15s | %-15s | %-15s | %-15s | %-15s | %-15s | %-15s | %-15s | %-15s | %-15s\r\n",
   [Arg.str "Role", Arg.str "Scenario", Arg.str "Host Network", Arg.str "Service",
    Arg.str "Message Size", Arg.str "Same node", Arg.str "Idle CPU", Arg.str "User CPU",
    Arg.str "System CPU", Arg.str "Steal CPU", Arg.str "IOWait CPU", Arg.str "Nice CPU",
    Arg.str "SoftIRQ CPU", Arg.str "IRQ CPU"]⟩

/-- The first `Printf` of the loop body of `ShowNodeCPU`, the client row. -/
def nodeClientRow (r : Data) : Line :=
  let ccpu := r.ClientMetrics
  ⟨nodeRowFormat,
   [Arg.str "Client", Arg.str r.Profile, Arg.bool r.HostNetwork, Arg.bool r.Service,
    Arg.int r.MessageSize, Arg.bool r.SameNode,
    Arg.float (F64.fin ccpu.Idle), Arg.float (F64.fin ccpu.User),
    Arg.float (F64.fin ccpu.System), Arg.float (F64.fin ccpu.Steal),
    Arg.float (F64.fin ccpu.Iowait), Arg.float (F64.fin ccpu.Nice),
    Arg.float (F64.fin ccpu.Softirq), Arg.float (F64.fin ccpu.Irq)]⟩

/-- The second `Printf` of the loop body of `ShowNodeCPU`, the server row: the
source passes `scpu` for the first four percentages and `ccpu` for the last
four. -/
def nodeServerRow (r : Data) : Line :=
  let ccpu := r.ClientMetrics
  let scpu := r.ServerMetrics
  ⟨nodeRowFormat,
   [Arg.str "Server", Arg.str r.Profile, Arg.bool r.HostNetwork, Arg.bool r.Service,
    Arg.int r.MessageSize, Arg.bool r.SameNode,
    Arg.float (F64.fin scpu.Idle), Arg.float (F64.fin scpu.User),
    Arg.float (F64.fin scpu.System), Arg.float (F64.fin scpu.Steal),
    Arg.float (F64.fin ccpu.Iowait), Arg.float (F64.fin ccpu.Nice),
    Arg.float (F64.fin ccpu.Softirq), Arg.float (F64.fin ccpu.Irq)]⟩

/-- The function `ShowNodeCPU`. -/
def ShowNodeCPU (s : ScenarioResults) : List Line :=
  [bannerLine "%s Node CPU Utilization %s\r\n" 111, nodeHeader, ruleLine 245]
    ++ s.Results.flatMap (fun r => [nodeClientRow r, nodeServerRow r])
    ++ [ruleLine 245]

/-- The header shared by the stream, latency and RR tables; `value` names the
last column. -/
def resultHeader (value : String) : Line :=
  ⟨"%-18s | %-15s |%-15s | %-15s | %-15s | %-15s | %-15s | %-15s\r\n",
   [Arg.str "Scenario", Arg.str "Host Network", Arg.str "Service", Arg.str "Message Size",
    Arg.str "Same node", Arg.str "Duration", Arg.str "Samples", Arg.str value]⟩

/-- The row shared by the stream, latency and RR tables: the value `avg` is
printed with `%-15f` and followed by the unit. -/
def resultRow (r : Data) (avg : F64) (unit : String) : Line :=
  ⟨"📊 %-15s | %-15t |%-15t | %-15d | %-15t | %-15d | %-15d | %-15f (%s) \r\n",
   [Arg.str r.Profile, Arg.bool r.HostNetwork, Arg.bool r.Service, Arg.int r.MessageSize,
    Arg.bool r.SameNode, Arg.int r.Duration, Arg.int r.Samples, Arg.float avg, Arg.str unit]⟩

/-- The loop body of `ShowStreamResult` and of `ShowRRResult`: the error of
`average` is discarded (`avg, _ := average(r.ThroughputSummary)`). -/
def throughputRow (emptyMedian : F64) (r : Data) : Line :=
  resultRow r (average emptyMedian r.ThroughputSummary).1 r.Metric

/-- The loop body of the two tables of `ShowLatencyResult`: the error of
`average` is discarded (`avg, _ := average(r.LatencySummary)`). -/
def latencyRow (emptyMedian : F64) (r : Data) : Line :=
  resultRow r (average emptyMedian r.LatencySummary).1 "usec"

/-- The function `ShowStreamResult`. -/
def ShowStreamResult (emptyMedian : F64) (s : ScenarioResults) : List Line :=
  if checkResults s "STREAM" then
    [bannerLine "%s Stream Results %s\r\n" 69, resultHeader "Avg value", ruleLine 155]
      ++ s.Results.flatMap (fun r =>
          if stringsContains r.Profile "STREAM" then [throughputRow emptyMedian r] else [])
      ++ [ruleLine 155]
  else []

/-- The function `ShowLatencyResult`. -/
def ShowLatencyResult (emptyMedian : F64) (s : ScenarioResults) : List Line :=
  (if checkResults s "STREAM" then
    [bannerLine "%s Stream Latency Results %s\r\n" 65, resultHeader "99%tile value", ruleLine 155]
      ++ s.Results.flatMap (fun r =>
          if stringsContains r.Profile "STREAM" then [latencyRow emptyMedian r] else [])
      ++ [ruleLine 155]
  else [])
  ++
  (if checkResults s "RR" then
    [bannerLine "%s RR Latency Results %s\r\n" 66, resultHeader "99%tile value", ruleLine 155]
      ++ s.Results.flatMap (fun r =>
          if stringsContains r.Profile "RR" then [latencyRow emptyMedian r] else [])
      ++ [ruleLine 155]
  else [])

/-- The function `ShowRRResult`. -/
def ShowRRResult (emptyMedian : F64) (s : ScenarioResults) : List Line :=
  if checkResults s "RR" then
    [bannerLine "%s RR Results %s\r\n" 72, resultHeader "Avg value", ruleLine 155]
      ++ s.Results.flatMap (fun r =>
          if stringsContains r.Profile "RR" then [throughputRow emptyMedian r] else [])
      ++ [ruleLine 155]
  else []

/-! ## `UpdateConfig` (`pkg/k8s/kubevirt.go`) -/

/-- Go's `make([]config.Config, n)`: a slice of `n` zero-valued configs. -/
def makeConfigs (n : Nat) : List Config := List.replicate n {}

/-- The function `UpdateConfig`: `update` starts as `make([]config.Config,
len(*nc))`, and the loop appends to it a copy of each config with `VM` and
`VMHost` set.  The result is paired with the slice behind `nc` after the call,
which the loop only reads. -/
def UpdateConfig (nc : List Config) (host : String) : List Config × List Config :=
  let update := nc.foldl
    (fun update cfg => update ++ [{ cfg with VM := true, VMHost := host }])
    (makeConfigs nc.length)
  (update, nc)


/-! ## Substring search -/

theorem startsWith_iff (s sub : List Char) : startsWith s sub = true ↔ sub <+: s := by
  induction sub generalizing s with
  | nil => simp [startsWith]
  | cons d sub ih =>
    cases s with
    | nil => simp [startsWith]
    | cons c s =>
      simp only [startsWith, Bool.and_eq_true, beq_iff_eq, ih, List.cons_prefix_cons]
      exact and_congr_left fun _ => eq_comm

theorem containsChars_iff (s sub : List Char) : containsChars s sub = true ↔ sub <:+: s := by
  induction s with
  | nil =>
    rw [containsChars, startsWith_iff, List.prefix_nil, List.infix_nil]
  | cons c s ih =>
    rw [containsChars, Bool.or_eq_true, startsWith_iff, ih, List.infix_cons_iff]

theorem stringsContains_iff (s substr : String) :
    stringsContains s substr = true ↔ ∃ a b : String, s = a ++ substr ++ b := by
  rw [stringsContains, containsChars_iff]
  constructor
  · rintro ⟨l, r, h⟩
    exact ⟨⟨l⟩, ⟨r⟩, String.ext (by simpa using h.symm)⟩
  · rintro ⟨a, b, h⟩
    exact ⟨a.data, b.data, by rw [h]; simp⟩

/-- Claim C5: `checkResults s f` is true exactly when some sample of `s` has a
profile of which `f` is a substring; it is false on the empty result set, true
for the single profile "TCP_STREAM" with family "STREAM", and false for the
single profile "TCP_RR" with family "STREAM". -/
theorem checkResults_iff_some_profile_contains :
    (∀ (s : ScenarioResults) (f : String),
      checkResults s f = true ↔ ∃ r ∈ s.Results, ∃ a b : String, r.Profile = a ++ f ++ b) ∧
    (∀ f : String, checkResults { Results := [] } f = false) ∧
    checkResults { Results := [{ Profile := "TCP_STREAM" }] } "STREAM" = true ∧
    checkResults { Results := [{ Profile := "TCP_RR" }] } "STREAM" = false := by
  refine ⟨fun s f => ?_, fun f => rfl, by decide, by decide⟩
  simp only [checkResults, List.any_eq_true, stringsContains_iff]

/-! ## The median lies within the series -/

theorem length_sortedCopy (vals : List ℚ) : (sortedCopy vals).length = vals.length :=
  List.length_insertionSort (· ≤ ·) vals

theorem perm_sortedCopy (vals : List ℚ) : (sortedCopy vals).Perm vals :=
  List.perm_insertionSort (· ≤ ·) vals

theorem sorted_sortedCopy (vals : List ℚ) : (sortedCopy vals).Sorted (· ≤ ·) :=
  List.sorted_insertionSort (· ≤ ·) vals

theorem overflow_of_abs_lt (q : ℚ) (h : |q| < overflowBound) : F64.overflow q = F64.fin q := by
  have h1 := abs_lt.1 h
  unfold F64.overflow
  rw [if_neg (not_le.2 h1.2), if_neg (not_le.2 h1.1)]

theorem overflow_of_le (q : ℚ) (h : overflowBound ≤ q) : F64.overflow q = F64.posInf := by
  unfold F64.overflow
  rw [if_pos h]

theorem statsMean_pair (a b : ℚ) (ha : |a| < overflowBound) (hab : |a + b| < overflowBound) :
    statsMean [a, b] = F64.fin ((a + b) / 2) := by
  have h0 : |0 + a| < overflowBound := by rwa [zero_add]
  have h1 : |0 + a + b| < overflowBound := by rwa [zero_add]
  simp only [statsMean, statsSum, List.foldl_cons, List.foldl_nil, F64.addOverflow, F64.add,
    overflow_of_abs_lt _ h0, overflow_of_abs_lt _ h1, F64.div, List.length_cons,
    List.length_nil]
  norm_num

theorem statsMean_pair_overflow (a b : ℚ) (ha : |a| < overflowBound)
    (hab : overflowBound ≤ a + b) : statsMean [a, b] = F64.posInf := by
  have h0 : |0 + a| < overflowBound := by rwa [zero_add]
  have h1 : overflowBound ≤ 0 + a + b := by rwa [zero_add]
  simp only [statsMean, statsSum, List.foldl_cons, List.foldl_nil, F64.addOverflow, F64.add,
    overflow_of_abs_lt _ h0, overflow_of_le _ h1, F64.div, List.length_cons, List.length_nil]
  norm_num

theorem middle_pair (xs : List ℚ) (h0 : 0 < xs.length) (h : xs.length % 2 = 0) :
    (xs.drop (xs.length / 2 - 1)).take 2
      = [xs.getD (xs.length / 2 - 1) 0, xs.getD (xs.length / 2) 0] := by
  have h1 : xs.length / 2 - 1 < xs.length := by omega
  have h2 : xs.length / 2 < xs.length := by omega
  have h3 : xs.length / 2 - 1 + 1 = xs.length / 2 := by omega
  rw [List.drop_eq_getElem_cons h1, h3, List.drop_eq_getElem_cons h2,
    List.getD_eq_getElem xs 0 h1, List.getD_eq_getElem xs 0 h2]
  rfl

theorem statsMedian_error_none (e : F64) (vals : List ℚ) (h : 0 < vals.length) :
    (statsMedian e vals).2 = none := by
  have hne : ¬ (sortedCopy vals).length = 0 := by rw [length_sortedCopy]; omega
  unfold statsMedian
  simp only [if_neg hne]
  split_ifs <;> rfl

theorem statsMedian_odd (e : F64) (vals : List ℚ) (h : vals.length % 2 = 1) :
    statsMedian e vals = (F64.fin ((sortedCopy vals).getD (vals.length / 2) 0), none) := by
  have hne : ¬ vals.length = 0 := by omega
  have hodd : ¬ vals.length % 2 = 0 := by omega
  simp only [statsMedian, length_sortedCopy, if_neg hne, if_neg hodd]

theorem statsMedian_even (e : F64) (vals : List ℚ) (h0 : 0 < vals.length)
    (h : vals.length % 2 = 0) :
    statsMedian e vals =
      (statsMean [(sortedCopy vals).getD (vals.length / 2 - 1) 0,
        (sortedCopy vals).getD (vals.length / 2) 0], none) := by
  have hl := length_sortedCopy vals
  have hne : ¬ vals.length = 0 := by omega
  have hm := middle_pair (sortedCopy vals) (by omega) (by omega)
  rw [hl] at hm
  simp only [statsMedian, length_sortedCopy, if_neg hne, if_pos h, hm]

theorem count_le_of_sorted (xs : List ℚ) (hs : xs.Sorted (· ≤ ·)) (k : ℕ) (hk : k < xs.length)
    (v : ℚ) (hv : xs[k] ≤ v) : k + 1 ≤ (xs.filter fun x => x ≤ v).length := by
  induction xs generalizing k with
  | nil => simp at hk
  | cons x xs ih =>
    have hsc := List.sorted_cons.1 hs
    have hx : x ≤ v := by
      cases k with
      | zero => simpa using hv
      | succ k =>
        have hk2 : k < xs.length := by simpa using hk
        exact le_trans (hsc.1 _ (List.getElem_mem hk2)) (by simpa using hv)
    rw [List.filter_cons_of_pos (by simpa using hx), List.length_cons]
    cases k with
    | zero => omega
    | succ k =>
      have hk2 : k < xs.length := by simpa using hk
      have := ih hsc.2 k hk2 (by simpa using hv)
      omega

theorem count_ge_of_sorted (xs : List ℚ) (hs : xs.Sorted (· ≤ ·)) (k : ℕ) (hk : k < xs.length)
    (v : ℚ) (hv : v ≤ xs[k]) : xs.length - k ≤ (xs.filter fun x => v ≤ x).length := by
  induction xs generalizing k with
  | nil => simp at hk
  | cons x xs ih =>
    have hsc := List.sorted_cons.1 hs
    cases k with
    | zero =>
      have hx : v ≤ x := by simpa using hv
      have hall : ∀ y ∈ x :: xs, decide (v ≤ y) = true := by
        intro y hy
        rcases List.mem_cons.1 hy with rfl | hy
        · simpa using hx
        · simpa using le_trans hx (hsc.1 y hy)
      rw [List.filter_eq_self.2 hall]
      omega
    | succ k =>
      have hk2 : k < xs.length := by simpa using hk
      have h1 := ih hsc.2 k hk2 (by simpa using hv)
      have h2 : (xs.filter fun y => v ≤ y).length ≤ ((x :: xs).filter fun y => v ≤ y).length := by
        rw [List.filter_cons]
        split_ifs <;> simp
      simp only [List.length_cons] at *
      omega

theorem statsMedian_in_range (e : F64) (vals : List ℚ) (h : 0 < vals.length)
    (hin : ∀ x ∈ vals, |x| < overflowBound)
    (hmid : vals.length % 2 = 1 ∨ |middleSum vals| < overflowBound)
    (lo hi : ℚ) (hb : ∀ x ∈ vals, lo ≤ x ∧ x ≤ hi) :
    ∃ v : ℚ, statsMedian e vals = (F64.fin v, none) ∧ lo ≤ v ∧ v ≤ hi ∧
      vals.length ≤ 2 * (vals.filter fun x => x ≤ v).length ∧
      vals.length ≤ 2 * (vals.filter fun x => v ≤ x).length := by
  have hl := length_sortedCopy vals
  have hs := sorted_sortedCopy vals
  have hmem : ∀ x ∈ sortedCopy vals, x ∈ vals := fun x hx => (perm_sortedCopy vals).mem_iff.1 hx
  have hle : ∀ v : ℚ, (vals.filter fun x => x ≤ v).length
      = ((sortedCopy vals).filter fun x => x ≤ v).length := fun v =>
    ((perm_sortedCopy vals).filter _).length_eq.symm
  have hge : ∀ v : ℚ, (vals.filter fun x => v ≤ x).length
      = ((sortedCopy vals).filter fun x => v ≤ x).length := fun v =>
    ((perm_sortedCopy vals).filter _).length_eq.symm
  by_cases hodd : vals.length % 2 = 1
  · have hm : vals.length / 2 < (sortedCopy vals).length := by omega
    refine ⟨(sortedCopy vals).getD (vals.length / 2) 0, statsMedian_odd e vals hodd, ?_⟩
    rw [List.getD_eq_getElem _ 0 hm, hle, hge]
    have hx := hb _ (hmem _ (List.getElem_mem hm))
    have h1 := count_le_of_sorted _ hs _ hm _ le_rfl
    have h2 := count_ge_of_sorted _ hs _ hm _ le_rfl
    refine ⟨hx.1, hx.2, ?_, ?_⟩ <;> omega
  · have heven : vals.length % 2 = 0 := by omega
    have hsum : |middleSum vals| < overflowBound := hmid.resolve_left hodd
    have hm1 : vals.length / 2 - 1 < (sortedCopy vals).length := by omega
    have hm2 : vals.length / 2 < (sortedCopy vals).length := by omega
    rw [middleSum, List.getD_eq_getElem _ 0 hm1, List.getD_eq_getElem _ 0 hm2] at hsum
    have hab : (sortedCopy vals)[vals.length / 2 - 1] ≤ (sortedCopy vals)[vals.length / 2] :=
      List.pairwise_iff_getElem.1 hs _ _ hm1 hm2 (by omega)
    have ha := hb _ (hmem _ (List.getElem_mem hm1))
    have hb2 := hb _ (hmem _ (List.getElem_mem hm2))
    refine ⟨((sortedCopy vals)[vals.length / 2 - 1] + (sortedCopy vals)[vals.length / 2]) / 2,
      ?_, ?_⟩
    · rw [statsMedian_even e vals h heven, List.getD_eq_getElem _ 0 hm1,
        List.getD_eq_getElem _ 0 hm2,
        statsMean_pair _ _ (hin _ (hmem _ (List.getElem_mem hm1))) hsum]
    · rw [hle, hge]
      have h1 := count_le_of_sorted _ hs _ hm1
        (((sortedCopy vals)[vals.length / 2 - 1] + (sortedCopy vals)[vals.length / 2]) / 2)
        (by linarith)
      have h2 := count_ge_of_sorted _ hs _ hm2
        (((sortedCopy vals)[vals.length / 2 - 1] + (sortedCopy vals)[vals.length / 2]) / 2)
        (by linarith)
      refine ⟨by linarith, by linarith, ?_, ?_⟩ <;> omega

theorem statsMedian_overflow (e : F64) (vals : List ℚ) (h : 0 < vals.length)
    (heven : vals.length % 2 = 0) (hin : ∀ x ∈ vals, |x| < overflowBound)
    (hsum : overflowBound ≤ middleSum vals) : statsMedian e vals = (F64.posInf, none) := by
  have hl := length_sortedCopy vals
  have hm1 : vals.length / 2 - 1 < (sortedCopy vals).length := by omega
  have hmem : (sortedCopy vals).getD (vals.length / 2 - 1) 0 ∈ vals := by
    rw [List.getD_eq_getElem _ 0 hm1]
    exact (perm_sortedCopy vals).mem_iff.1 (List.getElem_mem hm1)
  rw [statsMedian_even e vals h heven, statsMean_pair_overflow _ _ (hin _ hmem) hsum]

/-- Claim C9, as stated, fails: the series [1e308, 1e308] is non-empty and its
elements are finite `float64` values, yet `average` returns `+Inf` with a `nil`
error, so it returns no value between the minimum and the maximum, which are
both 1e308. -/
theorem average_overflow_above_max :
    |(10 : ℚ) ^ 308| < overflowBound ∧
    average F64.nan [10 ^ 308, 10 ^ 308] = (F64.posInf, none) ∧
    ¬ ∃ v : ℚ, average F64.nan [10 ^ 308, 10 ^ 308] = (F64.fin v, none) ∧
      List.minimum_of_length_pos (show 0 < [(10 : ℚ) ^ 308, 10 ^ 308].length by decide) ≤ v ∧
      v ≤ List.maximum_of_length_pos (show 0 < [(10 : ℚ) ^ 308, 10 ^ 308].length by decide) := by
  have hx : |(10 : ℚ) ^ 308| < overflowBound := by
    rw [abs_of_nonneg (by positivity)]
    norm_num [overflowBound]
  have hin : ∀ x ∈ [(10 : ℚ) ^ 308, 10 ^ 308], |x| < overflowBound := by
    intro x hx2
    simp only [List.mem_cons, List.mem_singleton, List.not_mem_nil, or_false, or_self] at hx2
    rw [hx2]
    exact hx
  have hsum : overflowBound ≤ middleSum [(10 : ℚ) ^ 308, 10 ^ 308] := by
    simp only [middleSum, sortedCopy, List.insertionSort, List.orderedInsert, le_refl, if_true,
      List.length_cons, List.length_nil]
    norm_num [overflowBound]
  have hres := statsMedian_overflow F64.nan [(10 : ℚ) ^ 308, 10 ^ 308] (by decide) (by decide)
    hin hsum
  refine ⟨hx, hres, ?_⟩
  rintro ⟨v, hv, -⟩
  rw [average, hres] at hv
  exact absurd (congrArg Prod.fst hv) (by simp)

/-- Claim C9, amended: for a non-empty series of finite `float64` values, of odd
length or with the sum of its two middle elements within the `float64` range,
`average` succeeds and, in exact arithmetic, returns a finite value `v` between
the minimum and the maximum of the series, which at least half of the elements
do not exceed and at least half are not below (the median); for an even length
with the sum of the two middle elements reaching the overflow bound it returns
`+Inf` with a `nil` error; on the empty series it fails with the empty-input
error. -/
theorem average_between_min_and_max_without_overflow (emptyMedian : F64) :
    (∀ (vals : List ℚ) (h : 0 < vals.length),
      (∀ x ∈ vals, |x| < overflowBound) →
      (vals.length % 2 = 1 ∨ |middleSum vals| < overflowBound) →
      ∃ v : ℚ, average emptyMedian vals = (F64.fin v, none) ∧
        List.minimum_of_length_pos h ≤ v ∧ v ≤ List.maximum_of_length_pos h ∧
        vals.length ≤ 2 * (vals.filter fun x => x ≤ v).length ∧
        vals.length ≤ 2 * (vals.filter fun x => v ≤ x).length) ∧
    (∀ vals : List ℚ, 0 < vals.length → vals.length % 2 = 0 →
      (∀ x ∈ vals, |x| < overflowBound) → overflowBound ≤ middleSum vals →
      average emptyMedian vals = (F64.posInf, none)) ∧
    (average emptyMedian []).2 = some StatsError.emptyInput := by
  refine ⟨fun vals h hin hmid => ?_, fun vals h heven hin hsum => ?_, rfl⟩
  · exact statsMedian_in_range emptyMedian vals h hin hmid _ _ fun x hx =>
      ⟨List.minimum_of_length_pos_le_of_mem hx h, List.le_maximum_of_length_pos_of_mem hx h⟩
  · exact statsMedian_overflow emptyMedian vals h heven hin hsum

/-- The series 4, 1, 3, 2 has its elements and the sum 2 + 3 of its two middle
elements within range; its median 5/2 lies between its minimum 1 and its
maximum 4. -/
theorem average_between_min_and_max_without_overflow_witness :
    ∃ v : ℚ, average F64.nan [4, 1, 3, 2] = (F64.fin v, none) ∧
      List.minimum_of_length_pos (show 0 < [(4 : ℚ), 1, 3, 2].length by decide) ≤ v ∧
      v ≤ List.maximum_of_length_pos (show 0 < [(4 : ℚ), 1, 3, 2].length by decide) ∧
      [(4 : ℚ), 1, 3, 2].length ≤ 2 * ([(4 : ℚ), 1, 3, 2].filter fun x => x ≤ v).length ∧
      [(4 : ℚ), 1, 3, 2].length ≤ 2 * ([(4 : ℚ), 1, 3, 2].filter fun x => v ≤ x).length :=
  (average_between_min_and_max_without_overflow F64.nan).1 [4, 1, 3, 2] (by decide)
    (by decide!) (Or.inr (by decide!))

/-! ## The comparative metric -/

theorem calDiff_fin (a b : ℚ) (h : a + b ≠ 0) :
    calDiff (F64.fin a) (F64.fin b) = F64.fin ((a - b) / ((a + b) / 2) * 100) := by
  simp [calDiff, F64.sub, F64.neg, F64.add, F64.div, F64.mul, h, sub_eq_add_neg]

/-- Claim C4: over exact arithmetic, for `a + b ≠ 0` the value
`calDiff a b = (a - b) / ((a + b) / 2) * 100` is the negation of `calDiff b a`. -/
theorem calDiff_swap_negates (a b : ℚ) (h : a + b ≠ 0) :
    calDiff (F64.fin a) (F64.fin b) = F64.fin ((a - b) / ((a + b) / 2) * 100) ∧
    calDiff (F64.fin a) (F64.fin b) = F64.neg (calDiff (F64.fin b) (F64.fin a)) := by
  have h' : b + a ≠ 0 := by rwa [add_comm]
  refine ⟨calDiff_fin a b h, ?_⟩
  rw [calDiff_fin a b h, calDiff_fin b a h', F64.neg, add_comm b a]
  congr 1
  ring

/-- With `a = 100` and `b = 50`: `calDiff 100 50 = 200/3 = -calDiff 50 100`. -/
theorem calDiff_swap_negates_witness :
    (100 : ℚ) + 50 ≠ 0 ∧
    calDiff (F64.fin 100) (F64.fin 50) = F64.fin ((100 - 50) / ((100 + 50) / 2) * 100) ∧
    calDiff (F64.fin 100) (F64.fin 50) = F64.neg (calDiff (F64.fin 50) (F64.fin 100)) :=
  ⟨by norm_num, calDiff_swap_negates 100 50 (by norm_num)⟩

theorem calDiff_zero_sum (a b : ℚ) (h : a + b = 0) :
    calDiff (F64.fin a) (F64.fin b) = F64.signedInf a := by
  have hb : b = -a := by linarith
  subst hb
  simp only [calDiff, F64.sub, F64.neg, F64.add, F64.div, F64.mul, neg_neg, add_neg_cancel,
    zero_div, if_true]
  rcases lt_trichotomy a 0 with ha | ha | ha
  · have h1 : ¬ a + a = 0 := by linarith
    have h2 : ¬ 0 < a + a := by linarith
    have h3 : ¬ a = 0 := by linarith
    have h4 : ¬ 0 < a := by linarith
    simp [F64.signedInf, F64.mul, h1, h2, h3, h4]
  · subst ha
    simp [F64.signedInf, F64.mul]
  · have h1 : ¬ a + a = 0 := by linarith
    have h2 : 0 < a + a := by linarith
    have h3 : ¬ a = 0 := by linarith
    simp [F64.signedInf, F64.mul, h1, h2, h3, ha]

theorem tcpStep_eq (e : F64) (acc : F64 × F64) (r : Data) :
    tcpStep e acc r =
      if hostSide r then ((average e r.ThroughputSummary).1, acc.2)
      else if podSide r then (acc.1, (average e r.ThroughputSummary).1)
      else acc := by
  unfold tcpStep hostSide podSide
  cases r.Service <;> cases r.HostNetwork <;> by_cases hp : r.Profile = "TCP_STREAM" <;>
    simp [hp]

theorem hostSide_not_podSide (r : Data) (h : hostSide r = true) : podSide r = false := by
  unfold hostSide at h
  unfold podSide
  cases hs : r.Service <;> cases hn : r.HostNetwork <;> simp_all

theorem foldl_tcpStep (e : F64) (rs : List Data) :
    rs.foldl (tcpStep e) (F64.fin 0, F64.fin 0) =
      (matchPerf e (lastMatch hostSide rs), matchPerf e (lastMatch podSide rs)) := by
  induction rs using List.reverseRecOn with
  | nil => rfl
  | append_singleton rs r ih =>
    rw [List.foldl_append, ih]
    simp only [List.foldl_cons, List.foldl_nil, tcpStep_eq, lastMatch, List.reverse_append,
      List.reverse_cons, List.reverse_nil, List.nil_append, List.singleton_append,
      List.find?_cons]
    by_cases hh : hostSide r = true
    · have hp := hostSide_not_podSide r hh
      simp [hh, hp, matchPerf]
    · by_cases hp : podSide r = true
      · simp [hh, hp, matchPerf]
      · simp [hh, hp]

/-! ## Which samples `TCPThroughputDiff` reads -/

theorem lastMatch_append_cons (p : Data → Bool) (pre post : List Data) (r : Data)
    (hr : p r = true) (hpost : ∀ x ∈ post, p x = false) :
    lastMatch p (pre ++ r :: post) = some r := by
  unfold lastMatch
  rw [List.reverse_append, List.reverse_cons, List.append_assoc, List.find?_append]
  have hnone : post.reverse.find? p = none := by
    rw [List.find?_eq_none]
    intro x hx
    simp [hpost x (List.mem_reverse.1 hx)]
  simp [hnone, hr]

theorem lastMatch_eq_find (p : Data → Bool) (rs : List Data)
    (h : (rs.filter p).length ≤ 1) : lastMatch p rs = rs.find? p := by
  unfold lastMatch
  rw [← List.filter_head?, ← List.filter_head?, List.filter_reverse, List.head?_reverse]
  match hf : rs.filter p, h with
  | [], _ => rfl
  | [_], _ => rfl
  | _ :: _ :: _, h => simp at h

theorem lastMatch_filter (p q : Data → Bool) (rs : List Data)
    (hpq : ∀ r, p r = true → q r = true) :
    lastMatch p (rs.filter q) = lastMatch p rs := by
  unfold lastMatch
  rw [← List.filter_reverse, List.find?_filter]
  congr 1
  funext r
  cases hp : p r
  · simp
  · simp [hpq r hp]

theorem TCPThroughputDiff_eq (e : F64) (s : ScenarioResults) :
    TCPThroughputDiff e s =
      (calDiff (matchPerf e (lastMatch hostSide s.Results))
        (matchPerf e (lastMatch podSide s.Results)), none) := by
  simp only [TCPThroughputDiff, foldl_tcpStep]

/-- Claim C1, as stated, fails: on the results [host TCP_STREAM with throughput
100, host TCP_STREAM with throughput 300, pod TCP_STREAM with throughput 50]
`TCPThroughputDiff` returns `calDiff 300 50`, which is not `calDiff 100 50`. -/
theorem TCPThroughputDiff_first_match_refuted :
    TCPThroughputDiff F64.nan
      { Results := [{ Profile := "TCP_STREAM", HostNetwork := true, ThroughputSummary := [100] },
                    { Profile := "TCP_STREAM", HostNetwork := true, ThroughputSummary := [300] },
                    { Profile := "TCP_STREAM", HostNetwork := false, ThroughputSummary := [50] }] }
      = (calDiff (F64.fin 300) (F64.fin 50), none) ∧
    calDiff (F64.fin 300) (F64.fin 50) ≠ calDiff (F64.fin 100) (F64.fin 50) := by
  constructor <;> decide!

/-- Claim C1, amended: `TCPThroughputDiff` takes `hostPerf` from the last sample,
in list order, with `Service = false`, `HostNetwork = true` and profile exactly
"TCP_STREAM", and `podPerf` from the last sample with `Service = false`,
`HostNetwork = false` and that profile (`0.0` for a side without such a
sample); a matching sample followed by no other on its side is the one used,
whatever precedes it.  For the results [host 100, host 300, pod 50] the result
is `calDiff 300 50`. -/
theorem TCPThroughputDiff_uses_last_match (emptyMedian : F64) :
    (∀ s : ScenarioResults, TCPThroughputDiff emptyMedian s =
      (calDiff (matchPerf emptyMedian (lastMatch hostSide s.Results))
        (matchPerf emptyMedian (lastMatch podSide s.Results)), none)) ∧
    (∀ (p : Data → Bool) (pre post : List Data) (r : Data), p r = true →
      (∀ x ∈ post, p x = false) → lastMatch p (pre ++ r :: post) = some r) ∧
    TCPThroughputDiff emptyMedian
      { Results := [{ Profile := "TCP_STREAM", HostNetwork := true, ThroughputSummary := [100] },
                    { Profile := "TCP_STREAM", HostNetwork := true, ThroughputSummary := [300] },
                    { Profile := "TCP_STREAM", HostNetwork := false, ThroughputSummary := [50] }] }
      = (calDiff (F64.fin 300) (F64.fin 50), none) := by
  refine ⟨TCPThroughputDiff_eq emptyMedian, lastMatch_append_cons, ?_⟩
  rw [TCPThroughputDiff_eq]
  have hh : lastMatch hostSide
      [{ Profile := "TCP_STREAM", HostNetwork := true, ThroughputSummary := [100] },
       { Profile := "TCP_STREAM", HostNetwork := true, ThroughputSummary := [300] },
       { Profile := "TCP_STREAM", HostNetwork := false, ThroughputSummary := [50] }]
      = some { Profile := "TCP_STREAM", HostNetwork := true, ThroughputSummary := [300] } := by
    decide
  have hp : lastMatch podSide
      [{ Profile := "TCP_STREAM", HostNetwork := true, ThroughputSummary := [100] },
       { Profile := "TCP_STREAM", HostNetwork := true, ThroughputSummary := [300] },
       { Profile := "TCP_STREAM", HostNetwork := false, ThroughputSummary := [50] }]
      = some { Profile := "TCP_STREAM", HostNetwork := false, ThroughputSummary := [50] } := by
    decide
  simp only [hh, hp, matchPerf, average, statsMedian, sortedCopy, List.insertionSort,
    List.orderedInsert]
  simp

/-- Claim C2: when each side has at most one sample with `Service = false` and
profile exactly "TCP_STREAM", and each such sample has a non-empty throughput
series, `TCPThroughputDiff` returns `calDiff h p` with a `nil` error, where `h`
is the median of the host-side match (`0.0` without one) and `p` that of the
pod-side match; the medians exist (`average` reports no error for them), and
dropping every other sample (a service, another profile) leaves the result
unchanged. -/
theorem TCPThroughputDiff_single_match (emptyMedian : F64) (s : ScenarioResults)
    (hhost : (s.Results.filter hostSide).length ≤ 1)
    (hpod : (s.Results.filter podSide).length ≤ 1)
    (hne : ∀ r ∈ s.Results, (hostSide r || podSide r) = true → r.ThroughputSummary ≠ []) :
    TCPThroughputDiff emptyMedian s =
      (calDiff (matchPerf emptyMedian (s.Results.find? hostSide))
        (matchPerf emptyMedian (s.Results.find? podSide)), none) ∧
    (∀ r ∈ s.Results, (hostSide r || podSide r) = true →
      (average emptyMedian r.ThroughputSummary).2 = none) ∧
    TCPThroughputDiff emptyMedian s =
      TCPThroughputDiff emptyMedian
        { Results := s.Results.filter fun r => hostSide r || podSide r } := by
  refine ⟨?_, fun r hr hside => ?_, ?_⟩
  · rw [TCPThroughputDiff_eq, lastMatch_eq_find _ _ hhost, lastMatch_eq_find _ _ hpod]
  · exact statsMedian_error_none emptyMedian r.ThroughputSummary
      (List.length_pos.2 (hne r hr hside))
  · rw [TCPThroughputDiff_eq, TCPThroughputDiff_eq,
      lastMatch_filter hostSide _ _ (fun r h => by simp [h]),
      lastMatch_filter podSide _ _ (fun r h => by simp [h])]

/-- The example of the specification: host series 100, 110, 90 and pod series
50, 60, 40 give `calDiff 100 50 = 200/3`, also with a service sample and a
"UDP_STREAM" sample in between. -/
theorem TCPThroughputDiff_single_match_witness :
    TCPThroughputDiff F64.nan
      { Results := [{ Profile := "TCP_STREAM", HostNetwork := true,
                      ThroughputSummary := [100, 110, 90] },
                    { Profile := "TCP_STREAM", Service := true, ThroughputSummary := [7] },
                    { Profile := "UDP_STREAM", ThroughputSummary := [9] },
                    { Profile := "TCP_STREAM", HostNetwork := false,
                      ThroughputSummary := [50, 60, 40] }] }
      = (F64.fin (200 / 3), none) ∧
    calDiff (F64.fin 100) (F64.fin 50) = F64.fin (200 / 3) :=
  ⟨((TCPThroughputDiff_single_match F64.nan
      { Results := [{ Profile := "TCP_STREAM", HostNetwork := true,
                      ThroughputSummary := [100, 110, 90] },
                    { Profile := "TCP_STREAM", Service := true, ThroughputSummary := [7] },
                    { Profile := "UDP_STREAM", ThroughputSummary := [9] },
                    { Profile := "TCP_STREAM", HostNetwork := false,
                      ThroughputSummary := [50, 60, 40] }] }
      (by decide) (by decide) (by decide)).1).trans (by decide!), by decide!⟩

/-! ## Division by zero and the error result -/

/-- Claim C3, as stated, fails: `calDiff 0 0` is the value `NaN`, and on the
empty result set `TCPThroughputDiff` returns `NaN` together with a `nil` error. -/
theorem calDiff_zero_zero_is_NaN_without_error :
    calDiff (F64.fin 0) (F64.fin 0) = F64.nan ∧
    TCPThroughputDiff (F64.fin 0) { Results := [] } = (F64.nan, none) := by
  constructor <;> decide!

/-- Claim C3, amended: `calDiff` has no error result; over exact arithmetic, for
`a + b = 0` it returns a non-finite `float64` (`NaN` for `a = 0`, `+Inf` for
`a > 0`, `-Inf` for `a < 0`).  The error `TCPThroughputDiff` returns is always
`nil`, and with no matching "TCP_STREAM" sample on either side the value it
returns is `NaN`. -/
theorem calDiff_zero_sum_not_finite_and_error_nil :
    (∀ a b : ℚ, a + b = 0 →
      calDiff (F64.fin a) (F64.fin b)
        = (if a = 0 then F64.nan else if 0 < a then F64.posInf else F64.negInf) ∧
      (calDiff (F64.fin a) (F64.fin b)).isFinite = false) ∧
    (∀ (emptyMedian : F64) (s : ScenarioResults), (TCPThroughputDiff emptyMedian s).2 = none) ∧
    (∀ (emptyMedian : F64) (s : ScenarioResults),
      (∀ r ∈ s.Results, hostSide r = false ∧ podSide r = false) →
      TCPThroughputDiff emptyMedian s = (F64.nan, none)) := by
  refine ⟨fun a b h => ?_, fun _ _ => rfl, fun e s h => ?_⟩
  · rw [calDiff_zero_sum a b h]
    refine ⟨rfl, ?_⟩
    unfold F64.signedInf
    split_ifs <;> rfl
  · have hh : lastMatch hostSide s.Results = none := by
      unfold lastMatch
      rw [List.find?_eq_none]
      intro x hx
      simp [(h x (List.mem_reverse.1 hx)).1]
    have hp : lastMatch podSide s.Results = none := by
      unfold lastMatch
      rw [List.find?_eq_none]
      intro x hx
      simp [(h x (List.mem_reverse.1 hx)).2]
    rw [TCPThroughputDiff_eq, hh, hp]
    simp only [matchPerf, calDiff_zero_sum 0 0 (by norm_num)]
    rfl

/-- With `a = 1` and `b = -1` the sum is zero and `calDiff` returns `+Inf`. -/
theorem calDiff_zero_sum_not_finite_and_error_nil_witness :
    (1 : ℚ) + -1 = 0 ∧
    (calDiff (F64.fin 1) (F64.fin (-1))
        = (if (1 : ℚ) = 0 then F64.nan else if (0 : ℚ) < 1 then F64.posInf else F64.negInf) ∧
      (calDiff (F64.fin 1) (F64.fin (-1))).isFinite = false) :=
  ⟨by norm_num, calDiff_zero_sum_not_finite_and_error_nil.1 1 (-1) (by norm_num)⟩

/-! ## The node CPU report -/

/-- Claim C6 on a sample whose client and server metrics differ: the Server row
that `ShowNodeCPU` prints carries the server's idle, user, system and steal
values (10, 20, 30, 40) but the client's iowait, nice, softirq and irq values
(5, 6, 7, 8), where the server's are 50, 60, 70, 80. -/
theorem ShowNodeCPU_server_row_has_client_values :
    ((ShowNodeCPU
      { Results := [{ Profile := "TCP_STREAM",
                      ClientMetrics := { Idle := 1, User := 2, System := 3, Steal := 4,
                                         Iowait := 5, Nice := 6, Softirq := 7, Irq := 8 },
                      ServerMetrics := { Idle := 10, User := 20, System := 30, Steal := 40,
                                         Iowait := 50, Nice := 60, Softirq := 70,
                                         Irq := 80 } }] }).map Line.args).getD 4 []
      = [Arg.str "Server", Arg.str "TCP_STREAM", Arg.bool false, Arg.bool false, Arg.int 0,
         Arg.bool false,
         Arg.float (F64.fin 10), Arg.float (F64.fin 20), Arg.float (F64.fin 30),
         Arg.float (F64.fin 40), Arg.float (F64.fin 5), Arg.float (F64.fin 6),
         Arg.float (F64.fin 7), Arg.float (F64.fin 8)] := by
  decide!

/-! ## The stream, latency and RR reports -/

theorem flatMap_if_singleton {α β : Type} (p : α → Bool) (f : α → β) (l : List α) :
    l.flatMap (fun r => if p r = true then [f r] else []) = (l.filter p).map f := by
  induction l with
  | nil => rfl
  | cons x l ih =>
    rw [List.flatMap_cons, ih]
    cases hp : p x <;> simp [List.filter_cons, hp]

theorem checkResults_eq_false (s : ScenarioResults) (f : String) :
    checkResults s f = false ↔ ∀ r ∈ s.Results, stringsContains r.Profile f = false := by
  simp [checkResults]

theorem checkResults_of_mem (s : ScenarioResults) (f : String) (r : Data)
    (hr : r ∈ s.Results) (h : stringsContains r.Profile f = true) :
    checkResults s f = true := by
  simp only [checkResults, List.any_eq_true]
  exact ⟨r, hr, h⟩

theorem ShowStreamResult_of_mem (e : F64) (s : ScenarioResults) (r : Data)
    (hr : r ∈ s.Results) (h : stringsContains r.Profile "STREAM" = true) :
    ShowStreamResult e s =
      [bannerLine "%s Stream Results %s\r\n" 69, resultHeader "Avg value", ruleLine 155]
        ++ (s.Results.filter fun x => stringsContains x.Profile "STREAM").map (throughputRow e)
        ++ [ruleLine 155] := by
  rw [ShowStreamResult, if_pos (checkResults_of_mem s "STREAM" r hr h), flatMap_if_singleton]

/-- Claim C7, as stated, fails: for a single "TCP_STREAM" sample with an empty
throughput series the report has its row, and the value column of that row
(argument 7 of the row's `Printf`) is the `float64` that came with the
discarded error, `NaN` or `0.0` by the library's release, printed with `%-15f`;
it is not the string "n/a". -/
theorem ShowStreamResult_empty_series_not_placeholder :
    ((ShowStreamResult F64.nan
        { Results := [{ Profile := "TCP_STREAM", Metric := "Mb/s" }] }).map
        fun l => l.args.getD 7 (Arg.str "")) =
      [Arg.str "", Arg.str "Avg value", Arg.str "", Arg.float F64.nan, Arg.str ""] ∧
    ((ShowStreamResult (F64.fin 0)
        { Results := [{ Profile := "TCP_STREAM", Metric := "Mb/s" }] }).map
        fun l => l.args.getD 7 (Arg.str "")) =
      [Arg.str "", Arg.str "Avg value", Arg.str "", Arg.float (F64.fin 0), Arg.str ""] ∧
    Arg.float F64.nan ≠ Arg.str "n/a" ∧ Arg.float (F64.fin 0) ≠ Arg.str "n/a" := by
  refine ⟨by decide!, by decide!, by decide, by decide⟩

/-- Claim C7, amended: for a STREAM-family sample with an empty throughput
series `ShowStreamResult` still emits the row of that sample and the rows of all
other STREAM samples, in sample order (the report is not aborted); the value
column of that sample's row is the `float64` that `average` returned with the
error the source discards, printed with `%-15f`, not a placeholder. -/
theorem ShowStreamResult_empty_series_row (emptyMedian : F64) (s : ScenarioResults) (r : Data)
    (hr : r ∈ s.Results) (hstream : stringsContains r.Profile "STREAM" = true)
    (hempty : r.ThroughputSummary = []) :
    ShowStreamResult emptyMedian s =
      [bannerLine "%s Stream Results %s\r\n" 69, resultHeader "Avg value", ruleLine 155]
        ++ (s.Results.filter fun x => stringsContains x.Profile "STREAM").map
            (throughputRow emptyMedian)
        ++ [ruleLine 155] ∧
    throughputRow emptyMedian r ∈ ShowStreamResult emptyMedian s ∧
    (throughputRow emptyMedian r).format
      = "📊 %-15s | %-15t |%-15t | %-15d | %-15t | %-15d | %-15d | %-15f (%s) \r\n" ∧
    (throughputRow emptyMedian r).args.getD 7 (Arg.str "") = Arg.float emptyMedian := by
  have hout := ShowStreamResult_of_mem emptyMedian s r hr hstream
  refine ⟨hout, ?_, rfl, ?_⟩
  · rw [hout]
    simp only [List.mem_append, List.mem_map, List.mem_filter]
    exact Or.inl (Or.inr ⟨r, ⟨hr, hstream⟩, rfl⟩)
  · simp only [throughputRow, hempty, resultRow]
    rfl

/-- A set with a "TCP_STREAM" sample without measurements next to a
"UDP_STREAM" sample with the series 7, 9: both rows are printed. -/
theorem ShowStreamResult_empty_series_row_witness :
    ShowStreamResult F64.nan
        { Results := [{ Profile := "TCP_STREAM" },
                      { Profile := "UDP_STREAM", ThroughputSummary := [7, 9] }] } =
      [bannerLine "%s Stream Results %s\r\n" 69, resultHeader "Avg value", ruleLine 155]
        ++ ([{ Profile := "TCP_STREAM" },
             { Profile := "UDP_STREAM", ThroughputSummary := [7, 9] }].filter
              fun x => stringsContains x.Profile "STREAM").map (throughputRow F64.nan)
        ++ [ruleLine 155] ∧
    (throughputRow F64.nan { Profile := "TCP_STREAM" }).args.getD 7 (Arg.str "")
      = Arg.float F64.nan :=
  have h := ShowStreamResult_empty_series_row F64.nan
    { Results := [{ Profile := "TCP_STREAM" },
                  { Profile := "UDP_STREAM", ThroughputSummary := [7, 9] }] }
    { Profile := "TCP_STREAM" } (by decide) (by decide) rfl
  ⟨h.1, h.2.2.2⟩

/-- Claim C8: when no sample has a profile containing "RR", `ShowRRResult`
emits nothing and `ShowLatencyResult` emits at most its STREAM table (no RR
banner, header, rule or row); and when some sample has a profile containing
"STREAM", `ShowStreamResult` emits its banner, header and rule, then exactly one
row for each sample whose profile contains "STREAM", in sample order, then the
closing rule. -/
theorem reports_gated_by_family (emptyMedian : F64) (s : ScenarioResults)
    (hRR : ∀ r ∈ s.Results, stringsContains r.Profile "RR" = false) :
    ShowRRResult emptyMedian s = [] ∧
    ShowLatencyResult emptyMedian s =
      (if checkResults s "STREAM" = true then
        [bannerLine "%s Stream Latency Results %s\r\n" 65, resultHeader "99%tile value",
          ruleLine 155]
          ++ (s.Results.filter fun x => stringsContains x.Profile "STREAM").map
              (latencyRow emptyMedian)
          ++ [ruleLine 155]
      else []) ∧
    ((∃ r ∈ s.Results, stringsContains r.Profile "STREAM" = true) →
      ShowStreamResult emptyMedian s =
        [bannerLine "%s Stream Results %s\r\n" 69, resultHeader "Avg value", ruleLine 155]
          ++ (s.Results.filter fun x => stringsContains x.Profile "STREAM").map
              (throughputRow emptyMedian)
          ++ [ruleLine 155]) := by
  have hno : checkResults s "RR" = false := (checkResults_eq_false s "RR").2 hRR
  refine ⟨?_, ?_, ?_⟩
  · simp [ShowRRResult, hno]
  · simp only [ShowLatencyResult, hno, flatMap_if_singleton, Bool.false_eq_true, if_false,
      List.append_nil]
  · rintro ⟨r, hr, h⟩
    exact ShowStreamResult_of_mem emptyMedian s r hr h

/-- A set with one "TCP_STREAM" and one "UDP_STREAM" sample and no RR sample:
no RR report, a latency report with the STREAM table only, and a stream report
with two rows. -/
theorem reports_gated_by_family_witness :
    ShowRRResult F64.nan
      { Results := [{ Profile := "TCP_STREAM", ThroughputSummary := [3], LatencySummary := [5] },
                    { Profile := "UDP_STREAM", ThroughputSummary := [4] }] } = [] ∧
    (ShowLatencyResult F64.nan
      { Results := [{ Profile := "TCP_STREAM", ThroughputSummary := [3], LatencySummary := [5] },
                    { Profile := "UDP_STREAM", ThroughputSummary := [4] }] }).length = 6 ∧
    (ShowStreamResult F64.nan
      { Results := [{ Profile := "TCP_STREAM", ThroughputSummary := [3], LatencySummary := [5] },
                    { Profile := "UDP_STREAM", ThroughputSummary := [4] }] }).length = 6 :=
  have h := reports_gated_by_family F64.nan
    { Results := [{ Profile := "TCP_STREAM", ThroughputSummary := [3], LatencySummary := [5] },
                  { Profile := "UDP_STREAM", ThroughputSummary := [4] }] } (by decide)
  ⟨h.1, by rw [h.2.1]; decide, by rw [h.2.2 (by decide)]; decide⟩

/-! ## `UpdateConfig` -/

theorem foldl_append_updated (host : String) (nc init : List Config) :
    nc.foldl (fun update cfg => update ++ [{ cfg with VM := true, VMHost := host }]) init
      = init ++ nc.map fun cfg => { cfg with VM := true, VMHost := host } := by
  induction nc generalizing init with
  | nil => simp
  | cons c nc ih => simp [ih]

theorem UpdateConfig_eq (nc : List Config) (host : String) :
    UpdateConfig nc host =
      (makeConfigs nc.length ++ nc.map fun cfg => { cfg with VM := true, VMHost := host },
        nc) := by
  simp only [UpdateConfig, foldl_append_updated]

/-- Claim C10 on the one-element list `[cfg]` with `cfg.Profile = "TCP_STREAM"`
and host "node-1": the result of `UpdateConfig` has two elements, a zero-valued
config followed by the updated copy of `cfg`; the input list is unchanged. -/
theorem UpdateConfig_prepends_zero_values :
    UpdateConfig [{ Profile := "TCP_STREAM", Duration := 10, Samples := 3, MessageSize := 1024 }]
        "node-1" =
      ([{ Profile := "", Duration := 0, Samples := 0, MessageSize := 0, VM := false,
          VMHost := "" },
        { Profile := "TCP_STREAM", Duration := 10, Samples := 3, MessageSize := 1024,
          VM := true, VMHost := "node-1" }],
       [{ Profile := "TCP_STREAM", Duration := 10, Samples := 3, MessageSize := 1024 }]) := by
  decide

end K8sNetperf
